import Mathlib

/-!
Shallow embedding of the call-signaling core of the shield-speak messenger:
the server-side signaling relay (supabase function relay-signaling), the 1:1
call controller and peer-session message handlers (VideoCall / AudioCall
components), the group call controller (GroupVideoCall component), and the
per-user call notification layer (Messenger page).

Fallible browser operations (WebRTC description/candidate application) are
modelled with Except; component state is explicit state passing; broadcast
publishes and UI notifications are explicit effect lists.
-/

namespace ShieldSpeak

/-! ## Signaling relay (supabase/functions/relay-signaling, src/unnamed/part_000) -/

/-- The opaque signaling message carried in the request body.  The relay only
inspects its `type` field (`!message || !message.type`); the rest is relayed
verbatim and modelled as an opaque string. -/
structure RelayMessage where
  type : Option String
  rest : String
deriving Repr, DecidableEq

/-- The JSON request body destructured by the relay as
`{ to, message, chatId, roomId, callType }`.  `claimedFrom` stands for any
`from`/sender hint a client may additionally place in the body; the relay's
destructuring never reads it. -/
structure RelayRequest where
  toUser : Option String
  message : Option RelayMessage
  chatId : Option String
  roomId : Option String
  callType : Option String
  claimedFrom : Option String
deriving Repr, DecidableEq

/-- The authenticated payload the relay builds: `fromUser` embeds the wire
field `from`, set to the server-verified `user.id`. -/
structure RelayPayload where
  fromUser : String
  toUser : Option String
  message : Option RelayMessage
  timestamp : Nat
deriving Repr, DecidableEq

/-- A broadcast publish performed by the relay (`channel.send`). -/
structure RelayPublish where
  channelName : String
  event : String
  payload : RelayPayload
deriving Repr, DecidableEq

/-- HTTP-style response of the relay. -/
structure RelayResponse where
  status : Nat
  error : Option String
  success : Bool
deriving Repr, DecidableEq

/-- The relay's observable outcome: the response plus the broadcast publish,
if one happened. -/
structure RelayResult where
  response : RelayResponse
  publish : Option RelayPublish
deriving Repr, DecidableEq

/-- JS truthiness of an optional string (`undefined`/`null`/`""` are falsy). -/
def truthyStr : Option String → Bool
  | none => false
  | some s => !(s == "")

/-- JS template interpolation of a possibly-undefined id. -/
def strOrUndefined : Option String → String
  | none => "undefined"
  | some s => s

/-- `!message || !message.type` from the relay's body validation. -/
def hasTypedMessage (req : RelayRequest) : Bool :=
  req.message.isSome && truthyStr (req.message.bind (·.type))

/-- The relay's call-type switch: channel name for a recognized call type,
`none` for the `Invalid call type` branch. -/
def channelNameFor (callType chatId roomId : Option String) : Option String :=
  if callType = some "video" then some ("video-call-" ++ strOrUndefined chatId)
  else if callType = some "audio" then some ("audio-call-" ++ strOrUndefined chatId)
  else if callType = some "group-video" then some ("group-video-call-" ++ strOrUndefined roomId)
  else if callType = some "group-audio" then some ("group-audio-call-" ++ strOrUndefined roomId)
  else none

/-- The relay-signaling request handler.  `authHeader` is the Authorization
header; `authUser` is the result of `supabase.auth.getUser()` (`none` when
`authError || !user`); `isMember` is the result of the `chat_members` lookup
for `(chatId || roomId, user.id)`; `now` is `Date.now()`.  Checks happen in
source order: missing header, failed auth, untyped message, membership,
call-type switch, then the publish of the server-stamped payload. -/
def relaySignaling (authHeader : Option String) (authUser : Option String)
    (isMember : Bool) (req : RelayRequest) (now : Nat) : RelayResult :=
  if authHeader.isNone then
    ⟨⟨401, some "Missing authorization header", false⟩, none⟩
  else
    match authUser with
    | none => ⟨⟨401, some "Unauthorized", false⟩, none⟩
    | some uid =>
      if !hasTypedMessage req then
        ⟨⟨400, some "Invalid message format", false⟩, none⟩
      else if !isMember then
        ⟨⟨403, some "Not authorized for this chat", false⟩, none⟩
      else
        match channelNameFor req.callType req.chatId req.roomId with
        | none => ⟨⟨400, some "Invalid call type", false⟩, none⟩
        | some cn =>
          ⟨⟨200, none, true⟩, some ⟨cn, "signaling", ⟨uid, req.toUser, req.message, now⟩⟩⟩

/-! ## Peer session: the RTCPeerConnection the call components drive
(VideoCall and AudioCall components, src/unnamed/part_013 and part_017) -/

/-- WebRTC signaling state of a connection (pranswer states are unused by
this codebase and omitted). -/
inductive SignalingState
  | stable
  | haveLocalOffer
  | haveRemoteOffer
  | closedState
deriving Repr, DecidableEq

/-- Kind tag of a session description. -/
inductive SdpType
  | offer
  | answer
deriving Repr, DecidableEq

/-- An SDP session description (contents opaque). -/
structure SessionDescription where
  sdpType : SdpType
  sdp : String
deriving Repr, DecidableEq

/-- An ICE candidate; `valid` models whether the browser accepts it in
`addIceCandidate` (a malformed candidate makes that call throw). -/
structure IceCandidate where
  valid : Bool
  data : String
deriving Repr, DecidableEq

/-- The browser RTCPeerConnection state the components observe and drive:
`signalingState`, the descriptions, and the candidates accepted so far.
`iceAddAttempts` counts successful `addIceCandidate` applications, making
"the candidate was passed to addIceCandidate" observable. -/
structure RTCPeerConnection where
  signalingState : SignalingState
  localDescription : Option SessionDescription
  remoteDescription : Option SessionDescription
  iceCandidates : List IceCandidate
  iceAddAttempts : Nat
deriving Repr, DecidableEq

/-- A freshly constructed `new RTCPeerConnection(configuration)`. -/
def RTCPeerConnection.new : RTCPeerConnection :=
  ⟨.stable, none, none, [], 0⟩

/-- `pc.setRemoteDescription(desc)`: per the WebRTC state machine, an offer
is accepted in `stable` (or replaces one in `have-remote-offer`) and moves to
`have-remote-offer`; an answer is accepted only in `have-local-offer` and
moves to `stable`; anything else throws InvalidStateError. -/
def setRemoteDescription (pc : RTCPeerConnection) (d : SessionDescription) :
    Except String RTCPeerConnection :=
  match d.sdpType, pc.signalingState with
  | .offer, .stable =>
      .ok { pc with remoteDescription := some d, signalingState := .haveRemoteOffer }
  | .offer, .haveRemoteOffer =>
      .ok { pc with remoteDescription := some d }
  | .answer, .haveLocalOffer =>
      .ok { pc with remoteDescription := some d, signalingState := .stable }
  | _, _ => .error "InvalidStateError: setRemoteDescription"

/-- `pc.setLocalDescription(desc)`: an offer is accepted in `stable` (or
replaces one in `have-local-offer`) and moves to `have-local-offer`; an
answer is accepted only in `have-remote-offer` and moves to `stable`. -/
def setLocalDescription (pc : RTCPeerConnection) (d : SessionDescription) :
    Except String RTCPeerConnection :=
  match d.sdpType, pc.signalingState with
  | .offer, .stable =>
      .ok { pc with localDescription := some d, signalingState := .haveLocalOffer }
  | .offer, .haveLocalOffer =>
      .ok { pc with localDescription := some d }
  | .answer, .haveRemoteOffer =>
      .ok { pc with localDescription := some d, signalingState := .stable }
  | _, _ => .error "InvalidStateError: setLocalDescription"

/-- `pc.createAnswer()`: valid only with a pending remote offer. -/
def createAnswer (pc : RTCPeerConnection) : Except String SessionDescription :=
  match pc.signalingState with
  | .haveRemoteOffer => .ok ⟨.answer, "answer-sdp"⟩
  | _ => .error "InvalidStateError: createAnswer"

/-- `pc.addIceCandidate(c)`: records the candidate; a malformed candidate
makes the call throw and leaves the connection unchanged. -/
def addIceCandidate (pc : RTCPeerConnection) (c : IceCandidate) :
    Except String RTCPeerConnection :=
  if c.valid then
    .ok { pc with iceCandidates := pc.iceCandidates ++ [c],
                  iceAddAttempts := pc.iceAddAttempts + 1 }
  else
    .error "OperationError: addIceCandidate"

/-- Incoming signaling messages dispatched by the components' broadcast
handler (`message.type` switch). -/
inductive SignalMessage
  | offer (d : SessionDescription)
  | answer (d : SessionDescription)
  | iceCandidate (c : IceCandidate)
  | endCall
deriving Repr, DecidableEq

/-- Outgoing signaling messages handed to `sendSignalingMessage`. -/
inductive OutMsg
  | offer (d : SessionDescription)
  | answer (d : SessionDescription)
  | iceCandidate (c : IceCandidate)
  | endCall
  | userJoined
  | userLeft
deriving Repr, DecidableEq

/-- The body of the try-block of the components' signaling handler
(VideoCall.subscribeToSignaling, part_013 lines 290-327; the AudioCall
handler in part_017 lines 401-420 is identical):
an `offer` is applied and answered; an `answer` is applied only when
`pc.signalingState === "have-local-offer"`; an `ice-candidate` is added only
when `pc.remoteDescription` exists; `end-call` is handled at session level.
Returns the updated connection and the messages sent, or the thrown error. -/
def processSignal (pc : RTCPeerConnection) :
    SignalMessage → Except String (RTCPeerConnection × List OutMsg)
  | .offer d => do
      let pc1 ← setRemoteDescription pc d
      let ans ← createAnswer pc1
      let pc2 ← setLocalDescription pc1 ans
      .ok (pc2, [OutMsg.answer ans])
  | .answer d =>
      if pc.signalingState = .haveLocalOffer then do
        let pc1 ← setRemoteDescription pc d
        .ok (pc1, [])
      else
        .ok (pc, [])
  | .iceCandidate c =>
      if pc.remoteDescription.isSome then do
        let pc1 ← addIceCandidate pc c
        .ok (pc1, [])
      else
        .ok (pc, [])
  | .endCall => .ok (pc, [])

/-! ## 1:1 call session state (VideoCall component, src/unnamed/part_013) -/

/-- Kind of a media track. -/
inductive TrackKind
  | audio
  | video
deriving Repr, DecidableEq

/-- A local or remote media track: its kind, its `enabled` flag (flipped by
the mute/video toggles) and whether `stop()` was called on it. -/
structure MediaTrack where
  kind : TrackKind
  enabled : Bool
  stopped : Bool
deriving Repr, DecidableEq

/-- `callStatus` of the VideoCall/AudioCall component. -/
inductive CallStatus
  | connecting
  | connected
  | ended
deriving Repr, DecidableEq

/-- The 1:1 call controller's state: the component's state hooks and refs.
`channelActive` models `channelRef.current` being set (signaling
subscription confirmed). -/
structure CallSession where
  isInitiator : Bool
  localStream : Option (List MediaTrack)
  remoteStream : Option (List MediaTrack)
  isMuted : Bool
  isVideoOff : Bool
  callStatus : CallStatus
  callDuration : Nat
  channelActive : Bool
deriving Repr, DecidableEq

/-- User-visible and signaling effects of a controller operation. -/
inductive Effect
  | sendSignaling (m : OutMsg)
  | toastError (msg : String)
  | toastInfo (msg : String)
  | closeDialog
deriving Repr, DecidableEq

/-- The flip `track.enabled = !track.enabled` applied by `toggleMute` to the
audio tracks of the local stream (`getAudioTracks().forEach`). -/
def flipAudioTrack (t : MediaTrack) : MediaTrack :=
  if t.kind = .audio then { t with enabled := !t.enabled } else t

/-- `toggleMute` (part_013 lines 343-350): if a local stream exists, flip
`enabled` on each of its audio tracks and flip `isMuted`.  It performs no
signaling and touches no other field (the tracks stay attached). -/
def toggleMute (s : CallSession) : CallSession × List Effect :=
  match s.localStream with
  | none => (s, [])
  | some tracks =>
      ({ s with localStream := some (tracks.map flipAudioTrack),
                isMuted := !s.isMuted }, [])

/-- `cleanup` (part_013 lines 394-451): stop all tracks, close the peer
connection, remove the channel, clear timers, reset state. -/
def cleanup (s : CallSession) : CallSession :=
  { isInitiator := s.isInitiator
    localStream := none
    remoteStream := none
    isMuted := s.isMuted
    isVideoOff := s.isVideoOff
    callStatus := .ended
    callDuration := 0
    channelActive := false }

/-- `handleEndCall` (part_013 lines 361-367): send one `end-call` signaling
message when the channel ref is set, then `cleanup()` and `onClose()`. -/
def handleEndCall (s : CallSession) : CallSession × List Effect :=
  let sendEffs := if s.channelActive then [Effect.sendSignaling .endCall] else []
  (cleanup s, sendEffs ++ [Effect.closeDialog])

/-- Milliseconds before an unanswered outgoing call is auto-terminated
(part_013 line 82). -/
def unansweredCallTimeoutMs : Nat := 45000

/-- The arming condition of the unanswered-call timer effect
(part_013 line 76): initiator side and still connecting while open. -/
def unansweredTimerArmed (s : CallSession) : Bool :=
  s.isInitiator && decide (s.callStatus = .connecting)

/-- The unanswered-call timeout callback (part_013 lines 77-82), fired
`unansweredCallTimeoutMs` after arming if not cleared: when the call is
still connecting, surface the not-answered toast and run `handleEndCall`. -/
def fireUnansweredTimeout (s : CallSession) : CallSession × List Effect :=
  if s.callStatus = .connecting then
    let r := handleEndCall s
    (r.1, Effect.toastError "Вызов не отвечен" :: r.2)
  else
    (s, [])

/-- The full per-message signaling handler with its try/catch
(part_013 lines 272-328): an `end-call` message runs `handleEndCall`; the
other messages run `processSignal`, and a thrown error is caught and logged,
dropping that single message while session and connection are left as they
were. -/
def handleSignaling (s : CallSession) (pc : RTCPeerConnection)
    (m : SignalMessage) : (CallSession × RTCPeerConnection) × List Effect :=
  match m with
  | .endCall =>
      let r := handleEndCall s
      ((r.1, pc), r.2)
  | _ =>
      match processSignal pc m with
      | .ok (pc1, outs) => ((s, pc1), outs.map Effect.sendSignaling)
      | .error _ => ((s, pc), [])

/-! ## Group call controller (GroupVideoCall component, src/unnamed/part_013
lines 890-1368; the audio variant follows the same protocol) -/

/-- A roster entry (`Participant` in the source): user id, display name,
optional remote stream, optional peer connection (referenced by id). -/
structure GParticipant where
  userId : String
  userName : String
  stream : Option Nat
  pcId : Option Nat
deriving Repr, DecidableEq

/-- One RTCPeerConnection constructed by the group controller, with the
remote user it targets and whether `close()` was called on it.  The `conns`
list records every connection the controller ever constructed, whether or
not the roster still references it. -/
structure GroupConn where
  id : Nat
  target : String
  pc : RTCPeerConnection
  isClosed : Bool
deriving Repr, DecidableEq

/-- The group controller's current state: current user, the roster
(`participants` state, as functional `setParticipants` updates see it) and
all constructed connections. -/
structure GroupCallState where
  currentUserId : String
  participants : List GParticipant
  conns : List GroupConn
  nextConnId : Nat
deriving Repr, DecidableEq

/-- The bindings the registered broadcast handler closed over.  The handler
is installed once, by `subscribeToRoom` during `initializeCall` (effect with
deps `[isOpen]`), so its closure holds the mount render's `participants`
array — whose objects never gain a `peerConnection`, since connections are
attached only through `setParticipants(prev => prev.map(...))`, which builds
new objects — and the mount render's `localStream` binding, which is `null`
(`setLocalStream` only affects later renders).  Reads of
`participants`/`localStream` inside the handler go through this snapshot;
writes go through functional `setParticipants` updates on the current
state, and the peer-connection objects themselves are shared mutable state
(`conns`). -/
structure HandlerSnapshot where
  participants : List GParticipant
  localStream : Bool
deriving Repr, DecidableEq

/-- The snapshot captured by the handler registered at mount: the initial
roster, no connections attached, and a `null` local stream. -/
def mountSnapshot (initial : List (String × String)) : HandlerSnapshot :=
  ⟨initial.map (fun p => ⟨p.1, p.2, none, none⟩), false⟩

/-- A `channelRef.current.send` by the group controller: recipient (`none`
is broadcast to all) and message. -/
structure GroupSend where
  target : Option String
  msg : OutMsg
deriving Repr, DecidableEq

/-- Look up a constructed connection by id. -/
def findConn (st : GroupCallState) (cid : Nat) : Option GroupConn :=
  st.conns.find? (fun c => c.id = cid)

/-- Replace the peer-connection state of connection `cid`. -/
def updateConn (st : GroupCallState) (cid : Nat) (pc : RTCPeerConnection) :
    GroupCallState :=
  { st with conns := st.conns.map (fun c => if c.id = cid then { c with pc := pc } else c) }

/-- `createPeerConnection(targetUserId, isInitiator, stream)` (part_013
lines 1011-1077): construct a new RTCPeerConnection, attach it to the
matching roster entry via `setParticipants` (a no-op when `targetUserId` is
not in the roster — the connection is then untracked), and, as initiator,
create an offer, set it locally and send it to the target.  Returns the new
state, the new connection's id and the sends performed.  No existing
connection is closed or replaced here. -/
def gCreatePeerConnection (st : GroupCallState) (targetUserId : String)
    (isInitiator : Bool) : GroupCallState × Nat × List GroupSend :=
  let cid := st.nextConnId
  let parts := st.participants.map
    (fun p => if p.userId = targetUserId then { p with pcId := some cid } else p)
  if isInitiator then
    let offer : SessionDescription := ⟨.offer, "offer-sdp"⟩
    let pc1 : RTCPeerConnection :=
      { RTCPeerConnection.new with localDescription := some offer,
                                   signalingState := .haveLocalOffer }
    ({ st with participants := parts,
               conns := st.conns ++ [⟨cid, targetUserId, pc1, false⟩],
               nextConnId := cid + 1 },
     cid, [⟨some targetUserId, OutMsg.offer offer⟩])
  else
    ({ st with participants := parts,
               conns := st.conns ++ [⟨cid, targetUserId, RTCPeerConnection.new, false⟩],
               nextConnId := cid + 1 },
     cid, [])

/-- The offer-application part of the group offer branch: set the remote
offer, create an answer, set it locally. -/
def applyOfferToPc (pc : RTCPeerConnection) (d : SessionDescription) :
    Except String (RTCPeerConnection × SessionDescription) := do
  let pc1 ← setRemoteDescription pc d
  let ans ← createAnswer pc1
  let pc2 ← setLocalDescription pc1 ans
  .ok (pc2, ans)

/-- Applying a received offer to connection `cid` (holding state `pc`) and
answering the sender: on success the connection is updated in place and the
answer sent; a thrown error drops the message and leaves the state as it
was.  In neither outcome is any connection closed or a new one created. -/
def gApplyOfferOn (st : GroupCallState) (sender : String) (cid : Nat)
    (pc : RTCPeerConnection) (d : SessionDescription) :
    GroupCallState × List GroupSend :=
  match applyOfferToPc pc d with
  | .ok (pc1, ans) =>
      (updateConn st cid pc1, [⟨some sender, OutMsg.answer ans⟩])
  | .error _ => (st, [])

/-- The case of the group `offer` branch in which the sender's captured
roster entry references a connection `cid`: that connection is reused — the
offer is applied to it and answered.  Unreachable under the mount snapshot,
whose roster objects never carry a connection. -/
def gHandleOfferTracked (st : GroupCallState) (sender : String) (cid : Nat)
    (d : SessionDescription) : GroupCallState × List GroupSend :=
  match findConn st cid with
  | none => (st, [])
  | some conn => gApplyOfferOn st sender cid conn.pc d

/-- The case of the group `offer` branch in which the sender's captured
roster entry has no connection: `if (!pc && localStream)` — only when the
captured `localStream` is non-null is a non-initiator connection
constructed, the offer applied to it and answered.  With the mount
snapshot's `null` stream nothing happens and the offer is dropped. -/
def gHandleOfferUntracked (snap : HandlerSnapshot) (st : GroupCallState)
    (sender : String) (d : SessionDescription) :
    GroupCallState × List GroupSend :=
  if snap.localStream then
    let r := gCreatePeerConnection st sender false
    match findConn r.1 r.2.1 with
    | none => (r.1, r.2.2)
    | some conn =>
        let r2 := gApplyOfferOn r.1 sender r.2.1 conn.pc d
        (r2.1, r.2.2 ++ r2.2)
  else
    (st, [])

/-- The `offer` branch of the group broadcast handler (part_013 lines
1127-1144), `sender` being the payload's `from`: look up the sender's
roster entry and its connection in the CAPTURED `participants`, reuse the
connection when the captured entry carries one, otherwise fall through to
the `!pc && localStream` case. -/
def gHandleOffer (snap : HandlerSnapshot) (st : GroupCallState)
    (sender : String) (d : SessionDescription) :
    GroupCallState × List GroupSend :=
  match (snap.participants.find? (fun p => p.userId = sender)).bind
      (fun p => p.pcId) with
  | some cid => gHandleOfferTracked st sender cid d
  | none => gHandleOfferUntracked snap st sender d

/-- The `user-joined` branch of the group broadcast handler (part_013 lines
1116-1126): for a sender other than ourselves that is absent from the
CAPTURED `participants`, append a roster entry (a functional
`setParticipants` update on current state) and, `if (localStream)` — the
captured binding — create an initiator-side connection to the sender.
With the mount snapshot's `null` stream only the roster entry is added. -/
def gHandleUserJoined (snap : HandlerSnapshot) (st : GroupCallState)
    (sender : String) : GroupCallState × List GroupSend :=
  if sender ≠ st.currentUserId ∧
      (snap.participants.find? (fun p => p.userId = sender)).isNone then
    let st1 := { st with participants :=
      st.participants ++ [⟨sender, "Участник", none, none⟩] }
    if snap.localStream then
      let r := gCreatePeerConnection st1 sender true
      (r.1, r.2.2)
    else
      (st1, [])
  else
    (st, [])

/-- One step of the startup loop over the initial roster: an initiator-side
connection to each member other than ourselves (the loop uses the local
`stream` constant, so these creations really happen). -/
def gInitStep (me : String) (acc : GroupCallState × List GroupSend)
    (p : String × String) : GroupCallState × List GroupSend :=
  if p.1 ≠ me then
    let r := gCreatePeerConnection acc.1 p.1 true
    (r.1, acc.2 ++ r.2.2)
  else
    acc

/-- Group controller startup (part_013 lines 973-1009): local media, room
subscription, a broadcast `user-joined` announcement, then an
initiator-side connection to every initial roster member other than
ourselves. -/
def gInit (currentUserId : String)
    (initial : List (String × String)) : GroupCallState × List GroupSend :=
  let st0 : GroupCallState :=
    { currentUserId := currentUserId
      participants := initial.map (fun p => ⟨p.1, p.2, none, none⟩)
      conns := []
      nextConnId := 0 }
  let announce : GroupSend := ⟨none, OutMsg.userJoined⟩
  initial.foldl (gInitStep currentUserId) (st0, [announce])

/-- A connection-relevant event delivered to the registered broadcast
handler during the session. -/
inductive GroupEvent
  | userJoined (sender : String)
  | offer (sender : String) (d : SessionDescription)
deriving Repr, DecidableEq

/-- Dispatch of one received broadcast to the registered handler. -/
def applyGroupEvent (snap : HandlerSnapshot) (st : GroupCallState) :
    GroupEvent → GroupCallState × List GroupSend
  | .userJoined sender => gHandleUserJoined snap st sender
  | .offer sender d => gHandleOffer snap st sender d

/-- The controller state after the registered handler processed a sequence
of received broadcasts. -/
def applyGroupEvents (snap : HandlerSnapshot) (st : GroupCallState)
    (events : List GroupEvent) : GroupCallState :=
  events.foldl (fun s e => (applyGroupEvent snap s e).1) st

/-- The connections the controller currently holds open towards `target`. -/
def openConnsTo (st : GroupCallState) (target : String) : List GroupConn :=
  st.conns.filter (fun c => c.target = target && !c.isClosed)

/-! ## Call notification layer (src/src/pages/Messenger.tsx) -/

/-- An incoming-call notification held in Messenger state. -/
structure IncomingCall where
  chatId : String
  callerName : String
  callerId : String
  callType : String
deriving Repr, DecidableEq

/-- The active call the Messenger page mounts a call controller for;
`none` means no peer connection is being created. -/
structure ActiveCall where
  chatId : String
  otherUserId : String
  callType : String
  isInitiator : Bool
deriving Repr, DecidableEq

/-- Messenger page call-related state. -/
structure MessengerState where
  currentUserId : String
  incomingCall : Option IncomingCall
  activeCall : Option ActiveCall
deriving Repr, DecidableEq

/-- A broadcast publish performed by the Messenger page. -/
structure ChannelPublish where
  channel : String
  event : String
deriving Repr, DecidableEq

/-- The per-user channel each client subscribes to for call notifications
(Messenger.tsx line 337): it carries `incoming-call` and `call-declined`
events for `userId`. -/
def personalChannelName (userId : String) : String :=
  "global-call-notifications-" ++ userId

/-- The channel `handleDeclineCall` publishes the decline on
(Messenger.tsx line 393). -/
def declinePublishChannelName (callerId : String) : String :=
  "call-notifications-" ++ callerId

/-- `handleDeclineCall` (Messenger.tsx lines 390-403): with a pending
incoming call, publish a `call-declined` broadcast on
`call-notifications-{callerId}` and discard the notification; no active
call (and hence no peer connection) is created. -/
def handleDeclineCall (st : MessengerState) : MessengerState × List ChannelPublish :=
  match st.incomingCall with
  | none => (st, [])
  | some ic =>
      ({ st with incomingCall := none },
       [⟨declinePublishChannelName ic.callerId, "call-declined"⟩])

/-- `handleAcceptCall` (Messenger.tsx lines 375-386): mount a non-initiator
call controller for the caller and discard the notification. -/
def handleAcceptCall (st : MessengerState) : MessengerState × List ChannelPublish :=
  match st.incomingCall with
  | none => (st, [])
  | some ic =>
      ({ st with activeCall := some ⟨ic.chatId, ic.callerId, ic.callType, false⟩,
                 incomingCall := none }, [])

/-! ## Concrete example inputs used by counterexamples and witnesses -/

/-- A relay request with a recognized call type and a typed message, whose
body also claims a spoofed sender. -/
def relayReqVideo : RelayRequest :=
  ⟨some "bob", some ⟨some "offer", "sdp"⟩, some "chat1", none, some "video", some "mallory"⟩

/-- The same request with the unrecognized call type `teleport`. -/
def relayReqTeleport : RelayRequest :=
  { relayReqVideo with callType := some "teleport" }

/-- The publish the relay performs for `relayReqVideo` on behalf of the
authenticated caller `alice` at time 5. -/
def relayPubVideo : RelayPublish :=
  ⟨"video-call-chat1", "signaling",
   ⟨"alice", some "bob", some ⟨some "offer", "sdp"⟩, 5⟩⟩

/-- An offer description as received from a remote peer. -/
def offerFromC : SessionDescription := ⟨.offer, "offer-from-C"⟩

/-- An initial group roster with members `B` and `C`. -/
def initialBC : List (String × String) := [("B", "Bob"), ("C", "Carl")]

/-- Broadcasts received by `A`'s group controller: `D` joins, then offers
arrive from the roster member `B` and twice from the unknown sender `D`. -/
def groupEventsEx : List GroupEvent :=
  [.userJoined "D", .offer "B" offerFromC,
   .offer "D" offerFromC, .offer "D" offerFromC]

/-- Messenger state of callee `B` with a ringing incoming call from `A`. -/
def messengerRingingFromA : MessengerState :=
  ⟨"B", some ⟨"chat1", "Alice", "A", "video"⟩, none⟩

/-- An initiator-side 1:1 session still connecting with an active signaling
channel. -/
def sessionConnecting : CallSession :=
  { isInitiator := true
    localStream := some [⟨.audio, true, false⟩, ⟨.video, true, false⟩]
    remoteStream := none
    isMuted := false
    isVideoOff := false
    callStatus := .connecting
    callDuration := 0
    channelActive := true }

/-- A connection that has sent a local offer and awaits the answer. -/
def pcHaveLocalOffer : RTCPeerConnection :=
  { RTCPeerConnection.new with
      localDescription := some ⟨.offer, "offer-sdp"⟩,
      signalingState := .haveLocalOffer }

/-- An answer description as received from a remote peer. -/
def answerFromPeer : SessionDescription := ⟨.answer, "answer-from-peer"⟩

/-! ## Theorems -/

/-- C1: for every relay request that passes authentication, membership and
validation, the `from` field of the payload the relay publishes equals the
server-authenticated caller's identity, and the publish is unchanged by any
`from`/sender value claimed in the request body. -/
theorem relay_published_from_is_authenticated (ah : Option String)
    (uid : String) (mem : Bool) (req : RelayRequest) (x : Option String)
    (now : Nat) (p : RelayPublish)
    (h : (relaySignaling ah (some uid) mem req now).publish = some p) :
    p.payload.fromUser = uid ∧
    (relaySignaling ah (some uid) mem { req with claimedFrom := x } now).publish
      = some p := by
  obtain ⟨t, m, ci, ri, ct, cf⟩ := req
  refine ⟨?_, h⟩
  simp only [relaySignaling] at h
  split at h
  · simp at h
  · split at h
    · simp at h
    · split at h
      · simp at h
      · split at h
        · simp at h
        · obtain rfl := Option.some.inj h
          rfl

/-- C1 witness: the relay publishes for `alice`'s authenticated request and
`relayPubVideo.payload.fromUser` is `alice`, unchanged when the body claims
sender `eve`. -/
theorem relay_published_from_is_authenticated_witness :
    relayPubVideo.payload.fromUser = "alice" ∧
    (relaySignaling (some "h") (some "alice") true
        { relayReqVideo with claimedFrom := some "eve" } 5).publish
      = some relayPubVideo :=
  relay_published_from_is_authenticated (some "h") "alice" true relayReqVideo
    (some "eve") 5 relayPubVideo rfl

/-- C5: a relay request whose call type is not one of the four recognized
tags never causes a broadcast publish, and — once authentication, message
validation and membership pass — is answered 400 "Invalid call type". -/
theorem relay_invalid_call_type_rejected (ah authUser : Option String)
    (mem : Bool) (req : RelayRequest) (now : Nat)
    (h1 : req.callType ≠ some "video") (h2 : req.callType ≠ some "audio")
    (h3 : req.callType ≠ some "group-video")
    (h4 : req.callType ≠ some "group-audio") :
    (relaySignaling ah authUser mem req now).publish = none ∧
    (ah.isSome = true → authUser.isSome = true → hasTypedMessage req = true →
      mem = true →
      (relaySignaling ah authUser mem req now).response =
        ⟨400, some "Invalid call type", false⟩) := by
  have hcn : channelNameFor req.callType req.chatId req.roomId = none := by
    unfold channelNameFor
    simp [h1, h2, h3, h4]
  unfold relaySignaling
  rcases ah with _ | a
  · exact ⟨rfl, by intro hs; simp at hs⟩
  rcases authUser with _ | u
  · exact ⟨rfl, by intro _ hs; simp at hs⟩
  by_cases hm : hasTypedMessage req = true
  · rcases mem with _ | _
    · simp [hm]
    · simp [hm, hcn]
  · simp [hm]

/-- C5 witness: the authenticated member request with call type `teleport`
yields no publish and the 400 "Invalid call type" response. -/
theorem relay_invalid_call_type_rejected_witness :
    (relaySignaling (some "h") (some "alice") true relayReqTeleport 5).publish
      = none ∧
    (relaySignaling (some "h") (some "alice") true relayReqTeleport 5).response
      = ⟨400, some "Invalid call type", false⟩ := by
  have r := relay_invalid_call_type_rejected (some "h") (some "alice") true
    relayReqTeleport 5 (by decide) (by decide) (by decide) (by decide)
  exact ⟨r.1, r.2 rfl rfl (by decide) rfl⟩

/-- C10: the relay validates in source order — missing header 401, failed
auth 401, untyped message 400, membership 403, call type 400 — so for a
request with an unrecognized call type: an authenticated non-member gets
403 "Not authorized for this chat", a member gets 400 "Invalid call type",
and the "Invalid call type" response implies the caller was authenticated
and a member. -/
theorem relay_validation_order (a uid : String) (authUser : Option String)
    (mem : Bool) (req : RelayRequest) (now : Nat)
    (h1 : req.callType ≠ some "video") (h2 : req.callType ≠ some "audio")
    (h3 : req.callType ≠ some "group-video")
    (h4 : req.callType ≠ some "group-audio") :
    (relaySignaling none authUser mem req now).response =
      ⟨401, some "Missing authorization header", false⟩ ∧
    (relaySignaling (some a) none mem req now).response =
      ⟨401, some "Unauthorized", false⟩ ∧
    (hasTypedMessage req = false →
      (relaySignaling (some a) (some uid) mem req now).response =
        ⟨400, some "Invalid message format", false⟩) ∧
    (hasTypedMessage req = true →
      (relaySignaling (some a) (some uid) false req now).response =
        ⟨403, some "Not authorized for this chat", false⟩ ∧
      (relaySignaling (some a) (some uid) false req now).publish = none) ∧
    (hasTypedMessage req = true →
      (relaySignaling (some a) (some uid) true req now).response =
        ⟨400, some "Invalid call type", false⟩) ∧
    ((relaySignaling (some a) authUser mem req now).response.error =
        some "Invalid call type" →
      mem = true ∧ authUser.isSome = true) := by
  have hcn : channelNameFor req.callType req.chatId req.roomId = none := by
    unfold channelNameFor
    simp [h1, h2, h3, h4]
  refine ⟨rfl, rfl, ?_, ?_, ?_, ?_⟩
  · intro hm
    unfold relaySignaling
    simp [hm]
  · intro hm
    unfold relaySignaling
    simp [hm]
  · intro hm
    unfold relaySignaling
    simp [hm, hcn]
  · intro he
    rcases authUser with _ | u
    · exact absurd he (by simp [relaySignaling])
    rcases mem with _ | _
    · unfold relaySignaling at he
      by_cases hm : hasTypedMessage req = true
      · simp [hm] at he
      · simp [hm] at he
    · exact ⟨rfl, rfl⟩

/-- C10 witness: at the concrete `teleport` request, the non-member response
is the 403 and the member response is the 400 "Invalid call type". -/
theorem relay_validation_order_witness :
    (relaySignaling (some "h") (some "alice") false relayReqTeleport 5).response
      = ⟨403, some "Not authorized for this chat", false⟩ ∧
    (relaySignaling (some "h") (some "alice") true relayReqTeleport 5).response
      = ⟨400, some "Invalid call type", false⟩ := by
  have r := relay_validation_order "h" "alice" (some "alice") false
    relayReqTeleport 5 (by decide) (by decide) (by decide) (by decide)
  exact ⟨(r.2.2.2.1 (by decide)).1, r.2.2.2.2.1 (by decide)⟩

/-- C3 (code bug): when callee `B` declines the ringing call from caller
`A`, the decline is published on `call-notifications-A`, while the only
channel `A`'s client subscribes to for call notifications is
`global-call-notifications-A`; the two names differ, so the decline never
reaches the caller.  The notification is discarded and no call controller
(hence no RTCPeerConnection) is mounted. -/
theorem decline_publish_channel_mismatch :
    (handleDeclineCall messengerRingingFromA).2 =
      [⟨declinePublishChannelName "A", "call-declined"⟩] ∧
    declinePublishChannelName "A" = "call-notifications-A" ∧
    personalChannelName "A" = "global-call-notifications-A" ∧
    declinePublishChannelName "A" ≠ personalChannelName "A" ∧
    (handleDeclineCall messengerRingingFromA).1.incomingCall = none ∧
    (handleDeclineCall messengerRingingFromA).1.activeCall = none := by
  refine ⟨rfl, rfl, rfl, ?_, rfl, rfl⟩
  decide

/-- C4: an initiator-side 1:1 session still `connecting` when the 45-second
unanswered-call timer fires (with the signaling channel active)
auto-terminates: the not-answered toast is surfaced, exactly one `end-call`
signaling message is sent, and the session state becomes `ended`. -/
theorem unanswered_timeout_autoterminates (s : CallSession)
    (hArm : unansweredTimerArmed s = true) (hCh : s.channelActive = true) :
    (fireUnansweredTimeout s).1.callStatus = .ended ∧
    (fireUnansweredTimeout s).2.count (Effect.sendSignaling .endCall) = 1 ∧
    Effect.toastError "Вызов не отвечен" ∈ (fireUnansweredTimeout s).2 := by
  have hConn : s.callStatus = .connecting := by
    unfold unansweredTimerArmed at hArm
    simp only [Bool.and_eq_true, decide_eq_true_eq] at hArm
    exact hArm.2
  refine ⟨?_, ?_, ?_⟩
  · simp [fireUnansweredTimeout, handleEndCall, cleanup, hConn, hCh]
  · simp [fireUnansweredTimeout, handleEndCall, cleanup, hConn, hCh,
      List.count_cons]
  · simp [fireUnansweredTimeout, handleEndCall, cleanup, hConn, hCh]

/-- C4 witness: the concrete connecting initiator session terminates with
state `ended`, one `end-call` send and the not-answered toast. -/
theorem unanswered_timeout_autoterminates_witness :
    (fireUnansweredTimeout sessionConnecting).1.callStatus = .ended ∧
    (fireUnansweredTimeout sessionConnecting).2.count
        (Effect.sendSignaling .endCall) = 1 ∧
    Effect.toastError "Вызов не отвечен" ∈ (fireUnansweredTimeout sessionConnecting).2 :=
  unanswered_timeout_autoterminates sessionConnecting (by decide) (by decide)

/-- C6: an incoming `answer` is applied (remote description set, state
moving to `stable`) only when the connection is in `have-local-offer`; in
any other state it is a no-op that neither throws nor emits messages, and in
particular re-delivering the answer to the resulting `stable` connection is
again a silent no-op. -/
theorem answer_applied_only_in_have_local_offer (pc : RTCPeerConnection)
    (d : SessionDescription) :
    (pc.signalingState ≠ .haveLocalOffer →
      processSignal pc (.answer d) = .ok (pc, [])) ∧
    (pc.signalingState = .haveLocalOffer → d.sdpType = .answer →
      processSignal pc (.answer d) =
        .ok ({ pc with remoteDescription := some d,
                       signalingState := .stable }, [])) ∧
    processSignal
        { pc with remoteDescription := some d, signalingState := .stable }
        (.answer d) =
      .ok ({ pc with remoteDescription := some d,
                     signalingState := .stable }, []) := by
  obtain ⟨st, ld, rd, ics, att⟩ := pc
  obtain ⟨dt, ds⟩ := d
  refine ⟨fun h => ?_, fun h1 h2 => ?_, rfl⟩
  · simp only [processSignal, if_neg h]
  · subst h1
    subst h2
    rfl

/-- C6 witness: at a `stable` connection the concrete answer is a silent
no-op, and at `pcHaveLocalOffer` it is applied. -/
theorem answer_applied_only_in_have_local_offer_witness :
    processSignal RTCPeerConnection.new (.answer answerFromPeer) =
      .ok (RTCPeerConnection.new, []) ∧
    processSignal pcHaveLocalOffer (.answer answerFromPeer) =
      .ok ({ pcHaveLocalOffer with remoteDescription := some answerFromPeer,
                                   signalingState := .stable }, []) :=
  ⟨(answer_applied_only_in_have_local_offer RTCPeerConnection.new
      answerFromPeer).1 (by decide),
   (answer_applied_only_in_have_local_offer pcHaveLocalOffer
      answerFromPeer).2.1 rfl rfl⟩

/-- C7: an incoming `ice-candidate` is added to the connection only when a
remote description exists; before that it is dropped — `addIceCandidate`
is never reached (the candidate list and attempt counter are unchanged) and
no error is raised. -/
theorem ice_candidate_requires_remote_description (pc : RTCPeerConnection)
    (c : IceCandidate) :
    (pc.remoteDescription = none →
      processSignal pc (.iceCandidate c) = .ok (pc, [])) ∧
    (pc.remoteDescription.isSome = true → c.valid = true →
      processSignal pc (.iceCandidate c) =
        .ok ({ pc with iceCandidates := pc.iceCandidates ++ [c],
                       iceAddAttempts := pc.iceAddAttempts + 1 }, [])) := by
  obtain ⟨st, ld, rd, ics, att⟩ := pc
  refine ⟨fun h => ?_, fun h1 h2 => ?_⟩
  · simp only at h
    subst h
    rfl
  · simp only [processSignal, h1, if_pos rfl, addIceCandidate, h2]
    rfl

/-- C7 witness: at a fresh connection (no remote description) the candidate
is dropped without error; after a remote description exists it is added. -/
theorem ice_candidate_requires_remote_description_witness :
    processSignal RTCPeerConnection.new (.iceCandidate ⟨true, "cand"⟩) =
      .ok (RTCPeerConnection.new, []) ∧
    processSignal
        { RTCPeerConnection.new with
            remoteDescription := some ⟨.offer, "o"⟩,
            signalingState := .haveRemoteOffer }
        (.iceCandidate ⟨true, "cand"⟩) =
      .ok ({ RTCPeerConnection.new with
               remoteDescription := some ⟨.offer, "o"⟩,
               signalingState := .haveRemoteOffer,
               iceCandidates := [⟨true, "cand"⟩],
               iceAddAttempts := 1 }, []) :=
  ⟨(ice_candidate_requires_remote_description RTCPeerConnection.new
      ⟨true, "cand"⟩).1 rfl,
   (ice_candidate_requires_remote_description
      { RTCPeerConnection.new with
          remoteDescription := some ⟨.offer, "o"⟩,
          signalingState := .haveRemoteOffer }
      ⟨true, "cand"⟩).2 rfl rfl⟩

/-- C8: a received signaling message whose processing throws is caught per
message and dropped: the session and the connection are exactly as before,
no message is sent and no teardown happens. -/
theorem failed_signal_message_dropped (s : CallSession)
    (pc : RTCPeerConnection) (m : SignalMessage) (e : String)
    (h : processSignal pc m = .error e) :
    handleSignaling s pc m = ((s, pc), []) := by
  cases m with
  | offer d => simp only [handleSignaling, h]
  | answer d => simp only [handleSignaling, h]
  | iceCandidate c => simp only [handleSignaling, h]
  | endCall =>
      simp only [processSignal] at h
      exact Except.noConfusion h

/-- C8 witness: an offer colliding with a pending local offer throws,
and the handler leaves the concrete session and connection unchanged with
no effects. -/
theorem failed_signal_message_dropped_witness :
    processSignal pcHaveLocalOffer (.offer offerFromC) =
      .error "InvalidStateError: setRemoteDescription" ∧
    handleSignaling sessionConnecting pcHaveLocalOffer (.offer offerFromC) =
      ((sessionConnecting, pcHaveLocalOffer), []) :=
  ⟨rfl, failed_signal_message_dropped sessionConnecting pcHaveLocalOffer
    (.offer offerFromC) "InvalidStateError: setRemoteDescription" rfl⟩

/-- Flipping a track's `enabled` flag twice restores the track. -/
theorem flipAudioTrack_involutive (t : MediaTrack) :
    flipAudioTrack (flipAudioTrack t) = t := by
  obtain ⟨k, e, st⟩ := t
  cases k <;> simp [flipAudioTrack]

/-- The mute flip never changes a track's kind. -/
theorem flipAudioTrack_kind (t : MediaTrack) :
    (flipAudioTrack t).kind = t.kind := by
  unfold flipAudioTrack
  split <;> rfl

/-- The mute flip never stops a track. -/
theorem flipAudioTrack_stopped (t : MediaTrack) :
    (flipAudioTrack t).stopped = t.stopped := by
  unfold flipAudioTrack
  split <;> rfl

/-- C9: for a session with a local stream, toggling mute twice restores the
whole session — every local audio track's `enabled` flag and the muted
indicator return to their original values — while a single toggle emits no
signaling and keeps every track attached and unstopped with its kind. -/
theorem toggle_mute_involution (s : CallSession)
    (hs : s.localStream.isSome = true) :
    (toggleMute (toggleMute s).1).1 = s ∧
    (toggleMute s).2 = [] ∧
    ((toggleMute s).1.localStream.getD []).map
        (fun t => (t.kind, t.stopped)) =
      (s.localStream.getD []).map (fun t => (t.kind, t.stopped)) := by
  obtain ⟨ini, ls, rs, im, iv, cs, cd, ch⟩ := s
  cases ls with
  | none => simp at hs
  | some tracks =>
      refine ⟨?_, rfl, ?_⟩
      · simp [toggleMute, List.map_map, Function.comp_def,
          flipAudioTrack_involutive]
      · simp [toggleMute, List.map_map, Function.comp_def,
          flipAudioTrack_kind, flipAudioTrack_stopped]

/-- C9 witness: double toggle restores the concrete session, with no
signaling effects and tracks preserved. -/
theorem toggle_mute_involution_witness :
    (toggleMute (toggleMute sessionConnecting).1).1 = sessionConnecting ∧
    (toggleMute sessionConnecting).2 = [] ∧
    ((toggleMute sessionConnecting).1.localStream.getD []).map
        (fun t => (t.kind, t.stopped)) =
      (sessionConnecting.localStream.getD []).map
        (fun t => (t.kind, t.stopped)) :=
  toggle_mute_involution sessionConnecting rfl

/-- Every roster object captured by the mount-time handler carries no
connection reference. -/
theorem mountSnapshot_find_pcId_none (initial : List (String × String))
    (sender : String) :
    ((mountSnapshot initial).participants.find?
        (fun p => p.userId = sender)).bind (fun p => p.pcId) = none := by
  cases hf : (mountSnapshot initial).participants.find?
      (fun p => p.userId = sender) with
  | none => rfl
  | some p =>
      have hp : p ∈ (mountSnapshot initial).participants :=
        List.mem_of_find?_eq_some hf
      simp only [mountSnapshot, List.mem_map] at hp
      obtain ⟨q, _, rfl⟩ := hp
      rfl

/-- Under the mount snapshot, a received `offer` is a complete no-op on
controller state: the captured roster entry has no connection and the
captured stream is `null`, so the offer is dropped without constructing,
closing or touching any connection. -/
theorem gHandleOffer_mount_noop (initial : List (String × String))
    (st : GroupCallState) (sender : String) (d : SessionDescription) :
    gHandleOffer (mountSnapshot initial) st sender d = (st, []) := by
  unfold gHandleOffer
  rw [mountSnapshot_find_pcId_none]
  unfold gHandleOfferUntracked
  rfl

/-- Under the mount snapshot, a received `user-joined` can only append a
roster entry; the captured `null` stream means no connection is created. -/
theorem gHandleUserJoined_mount_conns (initial : List (String × String))
    (st : GroupCallState) (sender : String) :
    (gHandleUserJoined (mountSnapshot initial) st sender).1.conns = st.conns := by
  unfold gHandleUserJoined
  split
  · rfl
  · rfl

/-- The registered broadcast handler never changes the connection store:
whatever `user-joined`/`offer` broadcasts arrive, the connections are
exactly those the controller held before. -/
theorem applyGroupEvents_mount_conns (initial : List (String × String))
    (st : GroupCallState) (events : List GroupEvent) :
    (applyGroupEvents (mountSnapshot initial) st events).conns = st.conns := by
  induction events generalizing st with
  | nil => rfl
  | cons e es ih =>
      cases e with
      | userJoined sender =>
          unfold applyGroupEvents at ih ⊢
          rw [List.foldl_cons, ih]
          exact gHandleUserJoined_mount_conns initial st sender
      | offer sender d =>
          unfold applyGroupEvents at ih ⊢
          rw [List.foldl_cons]
          show (List.foldl _ (gHandleOffer (mountSnapshot initial) st sender d).1 es).conns = st.conns
          rw [gHandleOffer_mount_noop]
          exact ih st

/-- The targets of the connections created by the startup loop are exactly
the initial roster members other than ourselves, in order. -/
theorem gInitStep_foldl_targets (me : String) (l : List (String × String))
    (acc : GroupCallState × List GroupSend) :
    ((l.foldl (gInitStep me) acc).1.conns.map (fun c => c.target)) =
      acc.1.conns.map (fun c => c.target) ++
        (l.map Prod.fst).filter (fun u => u ≠ me) := by
  induction l generalizing acc with
  | nil => simp
  | cons p ps ih =>
      rw [List.foldl_cons, ih]
      by_cases hp : p.1 ≠ me
      · simp [gInitStep, hp, gCreatePeerConnection]
      · simp [gInitStep, hp, List.filter_cons]

/-- The connection store after startup lists each non-self initial member's
target at most once, given a duplicate-free roster. -/
theorem gInit_target_count_le_one (me : String)
    (initial : List (String × String))
    (hnd : (initial.map Prod.fst).Nodup) (t : String) :
    (((gInit me initial).1.conns.map (fun c => c.target)).count t) ≤ 1 := by
  unfold gInit
  rw [gInitStep_foldl_targets]
  simp only [List.map_nil, List.nil_append]
  calc ((initial.map Prod.fst).filter (fun u => u ≠ me)).count t
      ≤ (initial.map Prod.fst).count t :=
        (List.filter_sublist _).count_le t
    _ ≤ 1 := List.nodup_iff_count_le_one.1 hnd t

/-- The open connections towards `t` are no more numerous than the
occurrences of `t` among all connection targets. -/
theorem openConnsTo_length_le_target_count (st : GroupCallState) (t : String) :
    (openConnsTo st t).length ≤ (st.conns.map (fun c => c.target)).count t := by
  unfold openConnsTo
  rw [← List.countP_eq_length_filter]
  unfold List.count
  rw [List.countP_map]
  refine List.countP_mono_left (fun c _ hc => ?_)
  simp only [Bool.and_eq_true, decide_eq_true_eq] at hc
  simp [Function.comp, hc.1]

/-- C2: within a group call session there is at most one open
RTCPeerConnection per (local user, remote user) pair at any time, and no
Group Call Controller operation creates a duplicate or replaces a
connection without closing the old one: the startup loop creates exactly
one initiator-side connection per distinct initial roster member, and the
registered broadcast handler — whose closure captured the mount-render
roster (no connection references) and the mount-render `null`
`localStream` — leaves the connection store untouched on every
`user-joined` and `offer` it processes, so no offer is ever applied over a
stale connection. -/
theorem group_single_connection_per_pair (me : String)
    (initial : List (String × String)) (events : List GroupEvent)
    (hnd : (initial.map Prod.fst).Nodup) :
    (applyGroupEvents (mountSnapshot initial) (gInit me initial).1 events).conns
      = (gInit me initial).1.conns ∧
    ∀ t, (openConnsTo
        (applyGroupEvents (mountSnapshot initial) (gInit me initial).1 events)
        t).length ≤ 1 := by
  have hc := applyGroupEvents_mount_conns initial (gInit me initial).1 events
  refine ⟨hc, fun t => ?_⟩
  have h1 := openConnsTo_length_le_target_count
    (applyGroupEvents (mountSnapshot initial) (gInit me initial).1 events) t
  rw [hc] at h1
  exact le_trans h1 (gInit_target_count_le_one me initial hnd t)

/-- C2 witness: for `A`'s controller over the roster `{B, C}` receiving a
join from `D`, an offer from `B` and two offers from the unknown `D`, the
connection store is unchanged from startup and at most one connection to
`C` is open. -/
theorem group_single_connection_per_pair_witness :
    (applyGroupEvents (mountSnapshot initialBC) (gInit "A" initialBC).1
        groupEventsEx).conns = (gInit "A" initialBC).1.conns ∧
    (openConnsTo
        (applyGroupEvents (mountSnapshot initialBC) (gInit "A" initialBC).1
          groupEventsEx) "C").length ≤ 1 :=
  ⟨(group_single_connection_per_pair "A" initialBC groupEventsEx (by decide)).1,
   (group_single_connection_per_pair "A" initialBC groupEventsEx (by decide)).2 "C"⟩

end ShieldSpeak
